import Mathlib

/-!
Verification of the Chatterbox relay (queue-mediated Slack relay).

The definitions below are a shallow embedding of the JavaScript sources:

* `SlashListener` (outbound relay) — `src/lib/log.js` (the part after the
  bunyan logger): `onConsume`, `processQueueMessage`, `ackMessage`, and the
  per-type helpers `say` / `update` / `delete` / `dm` / `dialog`.
* `Chatterbox` (session cache) — `src/unnamed/part_000`: `getSlack`,
  `getTeamInfo`.
* `SlackListener` (inbound relay) — `src/unnamed/part_001`: `onSlash`,
  `onChatAndSlash`, `processPayload`, `joinUserToNewChannel`,
  `createChannelName`.

Network operations (the slacksimple session, the MySQL pool, the message
queue) are modelled as oracles: structures of functions giving each external
call's outcome.  Each embedded method returns the list of observable effects
it performed (platform calls, queue enqueues, log lines, error reports, the
queue acknowledgment) together with an `Except` carrying the JavaScript
exception, if one escaped.
-/

namespace Chatterbox

/-- A JavaScript `Error` value as this code observes it: its `name`
(`"Error"` / `"TypeError"`), its `message`, and the optional platform error
code carried in `error.data.error` (read in the source via
`get(error, 'data', {})` then `get(data, 'error', 'unknown')`). -/
structure JsError where
  name : String
  message : String
  dataError : Option String
deriving DecidableEq, Repr

/-- `get(get(e, 'data', {}), 'error', 'unknown')` from
`SlashListener.processQueueMessage`. -/
def JsError.errType (e : JsError) : String :=
  e.dataError.getD "unknown"

/-- An outbound queue envelope as decoded by `SlashListener.onConsume`.
Every field a JS object may simply lack is an `Option`; `none` is JS
`undefined`. -/
structure Envelope where
  type : Option String
  channel : Option String
  team : Option String
  uid : Option String
  ts : Option String
  text : Option String
  opts : Option String
  triggerId : Option String
  dialogBody : Option String
  messageDelay : Option Nat
deriving DecidableEq, Repr

/-- How JS renders a possibly-undefined string inside a template literal. -/
def jsStr : Option String → String
  | none => "undefined"
  | some s => s

/-- The response object resolved by `slack.postMessage`; `processQueueMessage`
reads its `ts` field. -/
structure PostResponse where
  ts : Option String
deriving DecidableEq, Repr

/-- Observable effects of the outbound relay: each platform call (with the
team whose session served it and whether the call resolved), the
`add_timestamp` enqueue onto the in-queue, log lines, Sentry reports, and the
queue acknowledgment scheduled in `onConsume`'s `finally`. -/
inductive Effect where
  | getSlack (team : Option String) (ok : Bool)
  | postMessage (team channel text opts : Option String) (ok : Bool)
  | updateMessage (team ts channel text opts : Option String) (ok : Bool)
  | deleteMessage (team ts channel : Option String) (ok : Bool)
  | dm (team uid text opts : Option String) (ok : Bool)
  | dialog (team triggerId dlg : Option String) (ok : Bool)
  | enqueueIn (type : String) (ts channel teamid : Option String)
  | logError
  | logWarn
  | reportError
  | ack
deriving DecidableEq, Repr

/-- `true` exactly on the five chat-platform operations (invoked at all,
resolved or rejected). -/
def Effect.isPlatformOp : Effect → Bool
  | .postMessage _ _ _ _ _ => true
  | .updateMessage _ _ _ _ _ _ => true
  | .deleteMessage _ _ _ _ => true
  | .dm _ _ _ _ _ => true
  | .dialog _ _ _ _ => true
  | _ => false

/-- `true` exactly on a `dm` platform call that resolved (a direct message
that was actually sent). -/
def Effect.isDmOk : Effect → Bool
  | .dm _ _ _ _ true => true
  | _ => false

/-- `true` exactly on an in-queue enqueue effect. -/
def Effect.isEnqueueIn : Effect → Bool
  | .enqueueIn _ _ _ _ => true
  | _ => false

/-- Oracle for the chat-platform session(s): the outcome of
`chatterbox.getSlack(team)` and of each session operation, keyed by the team
the session was resolved for. -/
structure SlackOps where
  getSlack : Option String → Except JsError Unit
  postMessage : Option String → Option String → Option String → Option String →
    Except JsError PostResponse
  updateMessage : Option String → Option String → Option String → Option String →
    Option String → Except JsError Unit
  deleteMessage : Option String → Option String → Option String → Except JsError Unit
  dm : Option String → Option String → Option String → Option String → Except JsError Unit
  dialog : Option String → Option String → Option String → Except JsError Unit

namespace SlashListener

/-- `SlashListener.say`: resolve the session for `team`, then
`slack.postMessage(channel, text, options)`. -/
def say (ops : SlackOps) (channel team text opts : Option String) :
    List Effect × Except JsError PostResponse :=
  match ops.getSlack team with
  | .error e => ([.getSlack team false], .error e)
  | .ok () =>
    match ops.postMessage team channel text opts with
    | .error e => ([.getSlack team true, .postMessage team channel text opts false], .error e)
    | .ok r => ([.getSlack team true, .postMessage team channel text opts true], .ok r)

/-- `SlashListener.update`: resolve the session for `team`, then
`slack.updateMessage(ts, channel, text, options)`. -/
def update (ops : SlackOps) (ts channel team text opts : Option String) :
    List Effect × Except JsError Unit :=
  match ops.getSlack team with
  | .error e => ([.getSlack team false], .error e)
  | .ok () =>
    match ops.updateMessage team ts channel text opts with
    | .error e =>
      ([.getSlack team true, .updateMessage team ts channel text opts false], .error e)
    | .ok () =>
      ([.getSlack team true, .updateMessage team ts channel text opts true], .ok ())

/-- `SlashListener.delete`: resolve the session for `team`, then
`slack.deleteMessage(ts, channel)`. -/
def deleteMsg (ops : SlackOps) (ts channel team : Option String) :
    List Effect × Except JsError Unit :=
  match ops.getSlack team with
  | .error e => ([.getSlack team false], .error e)
  | .ok () =>
    match ops.deleteMessage team ts channel with
    | .error e => ([.getSlack team true, .deleteMessage team ts channel false], .error e)
    | .ok () => ([.getSlack team true, .deleteMessage team ts channel true], .ok ())

/-- `SlashListener.dm`: resolve the session for `team`, then
`slack.dm(uid, text, options)`. -/
def dmSend (ops : SlackOps) (uid team text opts : Option String) :
    List Effect × Except JsError Unit :=
  match ops.getSlack team with
  | .error e => ([.getSlack team false], .error e)
  | .ok () =>
    match ops.dm team uid text opts with
    | .error e => ([.getSlack team true, .dm team uid text opts false], .error e)
    | .ok () => ([.getSlack team true, .dm team uid text opts true], .ok ())

/-- `SlashListener.dialog`: resolve the session for `team`, then
`slack.dialog(trigger_id, dialog)`. -/
def dialogSend (ops : SlackOps) (team triggerId dlg : Option String) :
    List Effect × Except JsError Unit :=
  match ops.getSlack team with
  | .error e => ([.getSlack team false], .error e)
  | .ok () =>
    match ops.dialog team triggerId dlg with
    | .error e => ([.getSlack team true, .dialog team triggerId dlg false], .error e)
    | .ok () => ([.getSlack team true, .dialog team triggerId dlg true], .ok ())

/-- The `try` block of `SlashListener.processQueueMessage`: the if/else chain
on `message.type`, including the `add_timestamp` enqueue after a successful
`say` and the `TypeError` thrown for an unrecognized type. -/
def dispatch (ops : SlackOps) (msg : Envelope) : List Effect × Except JsError Unit :=
  if msg.type = some "say" then
    match say ops msg.channel msg.team msg.text msg.opts with
    | (effs, .error e) => (effs, .error e)
    | (effs, .ok r) =>
      (effs ++ [.enqueueIn "add_timestamp" r.ts msg.channel msg.team], .ok ())
  else if msg.type = some "update" then
    update ops msg.ts msg.channel msg.team msg.text msg.opts
  else if msg.type = some "delete" then
    deleteMsg ops msg.ts msg.channel msg.team
  else if msg.type = some "dm" then
    dmSend ops msg.uid msg.team msg.text msg.opts
  else if msg.type = some "dialog" then
    dialogSend ops msg.team msg.triggerId msg.dialogBody
  else
    ([.logError], .error ⟨"TypeError", "Invalid message type: " ++ jsStr msg.type ++ ".", none⟩)

/-- `SlashListener.processQueueMessage`: the `_.isUndefined(message.team)`
validation throw, the dispatch, and the `catch` that swallows platform errors
whose structured code is `message_not_found` with a warning log. -/
def processQueueMessage (ops : SlackOps) (msg : Envelope) :
    List Effect × Except JsError Unit :=
  if msg.team = none then
    ([.logError], .error ⟨"Error", "No team id defined.", none⟩)
  else
    match dispatch ops msg with
    | (effs, .ok ()) => (effs, .ok ())
    | (effs, .error e) =>
      if e.errType = "message_not_found" then
        (effs ++ [.logWarn], .ok ())
      else
        (effs, .error e)

/-- The corrective text DMed to the user when a platform call failed with
`channel_not_found`. -/
def inviteNudge : String :=
  "The Chat & Slash bot needs to be invited to your channel before you can play.  Type `/invite @chatandslash` before attempting any in-game actions."

/-- `SlashListener.onConsume` on a message whose body decoded to `msg`: run
`processQueueMessage`; on a `channel_not_found` escape, DM the corrective
nudge to `decoded.uid`; on any other escape, log and report to Sentry.  The
`finally` always schedules the acknowledgment (`Effect.ack`).  The `Except`
result is an exception escaping `onConsume` itself (only possible from the
`catch` handler's own awaits). -/
def onConsume (ops : SlackOps) (msg : Envelope) : List Effect × Except JsError Unit :=
  match processQueueMessage ops msg with
  | (effs, .ok ()) => (effs ++ [.ack], .ok ())
  | (effs, .error e) =>
    if e.message = "channel_not_found" then
      match ops.getSlack msg.team with
      | .error e2 => (effs ++ [.getSlack msg.team false, .ack], .error e2)
      | .ok () =>
        match ops.dm msg.team msg.uid (some inviteNudge) none with
        | .error e2 =>
          (effs ++ [.getSlack msg.team true,
            .dm msg.team msg.uid (some inviteNudge) none false, .ack], .error e2)
        | .ok () =>
          (effs ++ [.getSlack msg.team true,
            .dm msg.team msg.uid (some inviteNudge) none true, .ack], .ok ())
    else
      (effs ++ [.logError, .reportError, .ack], .ok ())

/-- `SlashListener.ackMessage`'s update of the adaptive delay counter:
`this.ackDelay = Math.max(0, this.ackDelay - 10)`. -/
def ackStep (d : Int) : Int :=
  max 0 (d - 10)

/-- `n` consecutive acknowledgments starting from delay `d`, with no
intervening modification of the counter. -/
def ackIter : Nat → Int → Int
  | 0, d => d
  | n + 1, d => ackIter n (ackStep d)

/-- The reachable values of `ackDelay`: it starts at `0` in the constructor
and is only ever written by `ackMessage` (no code path in the repository
increments it). -/
inductive ReachableDelay : Int → Prop where
  | init : ReachableDelay 0
  | step {d : Int} : ReachableDelay d → ReachableDelay (ackStep d)

end SlashListener

/-- A row of the `teams` table, as `Chatterbox.getTeamInfo` reads it
(`rows[0].bot_token`, `rows[0].app_token`, `rows[0].bot_id`,
`rows[0].autostart`). -/
structure TeamRow where
  bot_token : String
  app_token : String
  bot_id : String
  autostart : Bool
deriving DecidableEq, Repr

/-- A `slacksimple` `Slack` object as the cache holds it: the constructor
arguments, whether `connect()` has resolved on it, and the `autoStart` flag
`getSlack` attaches after connecting (absent until then). -/
structure Session where
  botToken : String
  appToken : String
  botId : String
  botName : String
  connected : Bool
  autoStart : Option Bool
deriving DecidableEq, Repr

/-- The mutable `this.slackClients` map, keyed by team ID. -/
structure CbState where
  slackClients : List (String × Session)
deriving DecidableEq, Repr

/-- Property read `this.slackClients[teamId]` (JS: `undefined` when the key
is absent). -/
def CbState.lookup (st : CbState) (teamId : String) : Option Session :=
  (st.slackClients.find? (fun p => p.1 = teamId)).map Prod.snd

/-- Property write `this.slackClients[teamId] = s`. -/
def CbState.insert (st : CbState) (teamId : String) (s : Session) : CbState :=
  if (st.slackClients.find? (fun p => p.1 = teamId)).isSome then
    ⟨st.slackClients.map (fun p => if p.1 = teamId then (teamId, s) else p)⟩
  else
    ⟨st.slackClients ++ [(teamId, s)]⟩

/-- Observable effects of the session cache: the credential fetch
(`getTeamInfo`'s SELECT) and the `connect()` call on a fresh session. -/
inductive CbEffect where
  | fetchCreds (teamId : String)
  | connect (teamId : String)
deriving DecidableEq, Repr

/-- Oracle for the cache's externals: the `teams` row the database holds for
a team ID (or none), and the outcome of `Slack#connect` for that team. -/
structure CbEnv where
  db : String → Option TeamRow
  connectResult : String → Except JsError Unit

/-- The `TypeError` JavaScript raises when `getTeamInfo` evaluates
`rows[0].bot_token` on an empty result set (`rows[0]` is `undefined`). -/
def rowAccessTypeError : JsError :=
  ⟨"TypeError", "Cannot read properties of undefined (reading bot_token).", none⟩

/-- `Chatterbox.getTeamInfo`: SELECT the team's row and return
`[bot_token, app_token, bot_id, autostart]`; with no row present the
destructuring reads throw a `TypeError`. -/
def getTeamInfo (env : CbEnv) (teamId : String) :
    List CbEffect × Except JsError (String × String × String × Bool) :=
  ([.fetchCreds teamId],
    match env.db teamId with
    | none => .error rowAccessTypeError
    | some row => .ok (row.bot_token, row.app_token, row.bot_id, row.autostart))

/-- `Chatterbox.getSlack`: on a cache hit return the cached session; on a
miss, fetch credentials, store `new Slack(botToken, appToken, botId,
'chatterbox')` in the cache, `await connect()` on it, then attach
`autoStart`.  The cache write happens before `connect()`, so a failed
connect leaves the unconnected session cached.  Returns the new state, the
effects performed, and the session or the escaping exception. -/
def getSlack (env : CbEnv) (st : CbState) (teamId : String) :
    CbState × List CbEffect × Except JsError Session :=
  match st.lookup teamId with
  | some s => (st, [], .ok s)
  | none =>
    match getTeamInfo env teamId with
    | (effs, .error e) => (st, effs, .error e)
    | (effs, .ok (botToken, appToken, botId, autoStart)) =>
      let fresh : Session := ⟨botToken, appToken, botId, "chatterbox", false, none⟩
      let st1 := st.insert teamId fresh
      match env.connectResult teamId with
      | .error e => (st1, effs ++ [.connect teamId], .error e)
      | .ok () =>
        let live : Session := { fresh with connected := true, autoStart := some autoStart }
        (st1.insert teamId live, effs ++ [.connect teamId], .ok live)

/-- The body of a slash-command HTTP request (`req.body`) as
`SlackListener.onSlash` reads it. -/
structure SlashPayload where
  token : String
  team_id : String
  channel_id : String
  channel_name : String
  user_id : String
  command : String
deriving DecidableEq, Repr

/-- The parts of `slack.userInfo`'s response that the listener reads:
`info.user.real_name` and `info.user.profile.email`. -/
structure UserProfile where
  real_name : String
  email : String
deriving DecidableEq, Repr

/-- A message enqueued onto the in-queue by `SlackListener`: either a
verified payload wrapped as `{type, payload}` by `processPayload`, or the
`{type: 'new-game', payload: {uid, teamid, channel, name, email}}` envelope
built by `finalizeNewGame`. -/
inductive InMsg where
  | payloadMsg (type : String) (p : SlashPayload)
  | newGame (uid teamid channel name email : String)
deriving DecidableEq, Repr

/-- Observable effects of the inbound listener's slash-command handling. -/
inductive LEffect where
  | getSlack (team : String) (ok : Bool)
  | dm (uid text : String) (ok : Bool)
  | getConversationMembers (channel : String) (ok : Bool)
  | getConversationInfo (channel : String) (ok : Bool)
  | userInfo (uid : String) (ok : Bool)
  | enqueue (m : InMsg)
  | logWarn
deriving DecidableEq, Repr

/-- `true` exactly on an enqueue of a `new-game` envelope. -/
def LEffect.isNewGameEnqueue : LEffect → Bool
  | .enqueue (.newGame _ _ _ _ _) => true
  | _ => false

/-- `true` exactly on a direct message that was actually sent. -/
def LEffect.isDmSent : LEffect → Bool
  | .dm _ _ true => true
  | _ => false

/-- Oracle for the inbound listener's externals: the env-var tokens, the
outcome of `chatterbox.getSlack` for a team, the session operations the
game-start protocol uses, and the `characters` table lookup behind
`getCharacterChannel` (which returns `''` when no row exists). -/
structure ListenerEnv where
  verificationToken : String
  cnsApiToken : String
  getSlackResult : String → Except JsError Unit
  dm : String → String → Except JsError Unit
  getConversationMembers : String → Except JsError Unit
  getConversationInfo : String → Except JsError String
  userInfo : String → Except JsError UserProfile
  charChannel : String → String → String

namespace SlackListener

/-- `SlackListener.isValidToken`. -/
def isValidToken (env : ListenerEnv) (requestType token : String) : Bool :=
  if requestType = "payment" ∧ token = env.cnsApiToken then
    true
  else if token = env.verificationToken then
    true
  else
    false

/-- `SlackListener.processPayload`: enqueue `{type, payload}` when the token
verifies, otherwise log a warning. -/
def processPayload (env : ListenerEnv) (type : String) (p : SlashPayload) :
    List LEffect × Except JsError Unit :=
  if isValidToken env type p.token then
    ([.enqueue (.payloadMsg type p)], .ok ())
  else
    ([.logWarn], .ok ())

/-- The rejection text DMed when the game-start command came from a channel
whose `channel_name` is not `privategroup`. -/
def publicChannelNudge : String :=
  "You can't play Chat & Slash in public channels.  Create a new private channel, then `/invite @chatandslash` before typing `/chatandslash`."

/-- The rejection text DMed when the bot cannot list the channel's members
(`channel_not_found`, i.e. the bot was not invited). -/
def notInChannelNudge : String :=
  "The Chat & Slash bot needs to be invited to your channel before you can play.  Type `/invite @chatandslash` before typing `/chatandslash`."

/-- `SlackListener.finalizeNewGame`: enqueue the `new-game` envelope. -/
def finalizeNewGame (uid teamid channel name email : String) :
    List LEffect × Except JsError Unit :=
  ([.enqueue (.newGame uid teamid channel name email)], .ok ())

/-- `SlackListener.onChatAndSlash`: the game-start protocol for the
`/chatandslash` command — channel-type check, membership check, duplicate
check, profile fetch, then `finalizeNewGame`. -/
def onChatAndSlash (env : ListenerEnv) (p : SlashPayload) :
    List LEffect × Except JsError Unit :=
  match env.getSlackResult p.team_id with
  | .error e => ([.getSlack p.team_id false], .error e)
  | .ok () =>
    let pre := [LEffect.getSlack p.team_id true]
    if p.channel_name ≠ "privategroup" then
      match env.dm p.user_id publicChannelNudge with
      | .error e => (pre ++ [.logWarn, .dm p.user_id publicChannelNudge false], .error e)
      | .ok () => (pre ++ [.logWarn, .dm p.user_id publicChannelNudge true], .ok ())
    else
      match env.getConversationMembers p.channel_id with
      | .error e =>
        let pre2 := pre ++ [LEffect.getConversationMembers p.channel_id false]
        if e.message = "channel_not_found" then
          match env.dm p.user_id notInChannelNudge with
          | .error e2 =>
            (pre2 ++ [.logWarn, .dm p.user_id notInChannelNudge false], .error e2)
          | .ok () =>
            (pre2 ++ [.logWarn, .dm p.user_id notInChannelNudge true], .ok ())
        else
          (pre2, .error e)
      | .ok () =>
        let pre2 := pre ++ [LEffect.getConversationMembers p.channel_id true]
        let existing := env.charChannel p.user_id p.team_id
        if existing = p.channel_id then
          let (effs, r) := processPayload env "slash" p
          (pre2 ++ effs, r)
        else if existing ≠ "" then
          match env.getConversationInfo existing with
          | .error e =>
            (pre2 ++ [.logWarn, .getConversationInfo existing false], .error e)
          | .ok chName =>
            let txt := "You already have a game of Chat & Slash on this team, in the channel: `" ++ chName ++ "`."
            match env.dm p.user_id txt with
            | .error e =>
              (pre2 ++ [.logWarn, .getConversationInfo existing true,
                .dm p.user_id txt false], .error e)
            | .ok () =>
              (pre2 ++ [.logWarn, .getConversationInfo existing true,
                .dm p.user_id txt true], .ok ())
        else
          match env.userInfo p.user_id with
          | .error e => (pre2 ++ [.userInfo p.user_id false], .error e)
          | .ok info =>
            let (effs, r) :=
              finalizeNewGame p.user_id p.team_id p.channel_id info.real_name info.email
            (pre2 ++ [.userInfo p.user_id true] ++ effs, r)

/-- `SlackListener.onSlash`: drop the command silently unless the channel ID
starts with `'G'`; then route `/chatandslash` to the game-start protocol and
every other command through `processPayload`. -/
def onSlash (env : ListenerEnv) (p : SlashPayload) : List LEffect × Except JsError Unit :=
  if p.channel_id.take 1 ≠ "G" then
    ([], .ok ())
  else if p.command = "/chatandslash" then
    onChatAndSlash env p
  else
    processPayload env "slash" p

/-- The response of `slack.createPrivateChannel` as `joinUserToNewChannel`
reads it: `ok`, the optional error code, and `group.id` (meaningful when
`ok`). -/
structure CreateResponse where
  ok : Bool
  error : Option String
  gid : String
deriving DecidableEq, Repr

/-- The response of `slack.invitePrivateChannel`. -/
structure InviteResponse where
  ok : Bool
  error : Option String
deriving DecidableEq, Repr

/-- Oracle for channel provisioning: the process mode (`dev` or not), the
bot identity attached to the session, and the platform's responses to
channel creation and invites. -/
structure ProvisionEnv where
  mode : String
  botId : String
  createPrivateChannel : String → CreateResponse
  invitePrivateChannel : String → String → InviteResponse

/-- What the caller of `joinUserToNewChannel` observes: a created channel
ID, a thrown error, or exhaustion of the modelled supply of random names
(the source retries unboundedly; the embedding consumes one fresh name per
attempt). -/
inductive JoinOutcome where
  | ok (channelId : String)
  | err (e : JsError)
  | outOfNames
deriving DecidableEq, Repr

/-- The invite steps of `joinUserToNewChannel` after a channel was created:
invite the user (tolerating `cant_invite_self` in dev mode only), then
invite the bot. -/
def inviteSteps (env : ProvisionEnv) (uid gid : String) : JoinOutcome :=
  let ir := env.invitePrivateChannel gid uid
  let bot : JoinOutcome :=
    let br := env.invitePrivateChannel gid env.botId
    if br.ok then .ok gid
    else .err ⟨"Error", "Could not invite bot to channel.", none⟩
  if ir.ok then bot
  else if env.mode = "dev" ∧ ir.error = some "cant_invite_self" then bot
  else .err ⟨"Error", "Could not invite user to channel.", none⟩

/-- `SlackListener.joinUserToNewChannel`: attempt creation under each name in
turn; a `name_taken` failure recurses with the next freshly generated name,
any other failed creation throws; then run the invite steps. -/
def joinUserToNewChannel (env : ProvisionEnv) (uid : String) :
    List String → JoinOutcome
  | [] => .outOfNames
  | ch :: rest =>
    let cr := env.createPrivateChannel ch
    if cr.ok then
      inviteSteps env uid cr.gid
    else if cr.error.getD "" = "name_taken" then
      joinUserToNewChannel env uid rest
    else
      .err ⟨"Error", "Could not create private channel.", none⟩

/-- One lowercase hex digit, for `Buffer#toString('hex')`. -/
def hexDigit (n : Nat) : Char :=
  if n % 16 < 10 then Char.ofNat (48 + n % 16) else Char.ofNat (87 + n % 16)

/-- One byte rendered as two lowercase hex digits. -/
def byteToHex (n : Nat) : String :=
  String.mk [hexDigit (n / 16), hexDigit n]

/-- `SlackListener.createChannelName`:
`'game-' + crypto.randomBytes(3).toString('hex')`, as a function of the
three random bytes. -/
def createChannelName (b0 b1 b2 : Nat) : String :=
  "game-" ++ byteToHex b0 ++ byteToHex b1 ++ byteToHex b2

/-- A lowercase hexadecimal digit character. -/
def isHexChar (c : Char) : Bool :=
  c.isDigit || ('a' ≤ c && c ≤ 'f')

end SlackListener

/-! ## Theorems -/

/-- C5: the outbound relay's adaptive delay counter (`ackDelay`) is never
negative in any reachable state, and `N` consecutive acknowledgments from a
value `V ≥ 0` with no intervening modification leave it at
`max (0, V - 10 * N)`. -/
theorem ackDelay_nonneg_and_decrement :
    (∀ d : Int, SlashListener.ReachableDelay d → 0 ≤ d) ∧
      (∀ (N : Nat) (V : Int), 0 ≤ V →
        SlashListener.ackIter N V = max 0 (V - 10 * (N : Int))) := by
  constructor
  · intro d h
    induction h with
    | init => exact le_refl 0
    | step _ _ => exact le_max_left 0 _
  · intro N
    induction N with
    | zero =>
      intro V hV
      simp only [SlashListener.ackIter, Nat.cast_zero, mul_zero, sub_zero]
      omega
    | succ n ih =>
      intro V hV
      have h1 : (0 : Int) ≤ SlashListener.ackStep V := le_max_left 0 _
      have h2 := ih (SlashListener.ackStep V) h1
      simp only [SlashListener.ackIter] at h2 ⊢
      rw [h2]
      simp only [SlashListener.ackStep]
      push_cast
      omega

/-- Witness for C5 at concrete inputs: the state after one acknowledgment is
reachable and nonnegative, and three acknowledgments from 25 land on
`max 0 (25 - 30)`. -/
theorem ackDelay_nonneg_and_decrement_witness :
    (0 : Int) ≤ SlashListener.ackStep 0 ∧
      SlashListener.ackIter 3 25 = max 0 (25 - 10 * ((3 : Nat) : Int)) :=
  ⟨ackDelay_nonneg_and_decrement.1 (SlashListener.ackStep 0)
      (SlashListener.ReachableDelay.step SlashListener.ReachableDelay.init),
    ackDelay_nonneg_and_decrement.2 3 25 (by decide)⟩

/-- C1: an outbound envelope with `team` undefined makes `onConsume` log the
validation error, report it, invoke no platform operation at all, schedule
the acknowledgment, and swallow the exception. -/
theorem missing_team_reported_acked_no_platform_call
    (ops : SlackOps) (msg : Envelope) (h : msg.team = none) :
    (SlashListener.onConsume ops msg).1 =
        [.logError, .logError, .reportError, .ack] ∧
      (SlashListener.onConsume ops msg).2 = .ok () ∧
      (SlashListener.onConsume ops msg).1.countP Effect.isPlatformOp = 0 ∧
      Effect.reportError ∈ (SlashListener.onConsume ops msg).1 ∧
      Effect.ack ∈ (SlashListener.onConsume ops msg).1 := by
  have hpqm : SlashListener.processQueueMessage ops msg =
      ([.logError], .error ⟨"Error", "No team id defined.", none⟩) := by
    simp [SlashListener.processQueueMessage, h]
  refine ⟨?_, ?_, ?_, ?_, ?_⟩ <;>
    simp [SlashListener.onConsume, hpqm, Effect.isPlatformOp, List.countP,
      List.countP.go]

/-- Witness for C1: a concrete envelope with no `team` against an oracle
whose every operation resolves. -/
def trivialOps : SlackOps where
  getSlack _ := .ok ()
  postMessage _ _ _ _ := .ok ⟨some "1.1"⟩
  updateMessage _ _ _ _ _ := .ok ()
  deleteMessage _ _ _ := .ok ()
  dm _ _ _ _ := .ok ()
  dialog _ _ _ := .ok ()

/-- The concrete envelope `{type: 'say', channel: 'C1', text: 'hi'}` with
`team` undefined. -/
def noTeamMsg : Envelope :=
  ⟨some "say", some "C1", none, none, none, some "hi", none, none, none, none⟩

theorem missing_team_reported_acked_no_platform_call_witness :
    noTeamMsg.team = none ∧
      (SlashListener.onConsume trivialOps noTeamMsg).1 =
        [.logError, .logError, .reportError, .ack] :=
  ⟨rfl, (missing_team_reported_acked_no_platform_call trivialOps noTeamMsg rfl).1⟩

/-- Shape of the `try` block's effects: dispatch never reports to Sentry and
never acknowledges, and whenever it rethrows, no direct message was
successfully sent by it. -/
theorem dispatch_shape (ops : SlackOps) (msg : Envelope) :
    ∀ effs r, SlashListener.dispatch ops msg = (effs, r) →
      Effect.reportError ∉ effs ∧ Effect.ack ∉ effs ∧
        (∀ e, r = Except.error e → effs.countP Effect.isDmOk = 0) := by
  intro effs r h
  unfold SlashListener.dispatch at h
  split at h
  · -- say
    cases hg : ops.getSlack msg.team with
    | error e1 =>
      simp only [SlashListener.say, hg] at h
      obtain ⟨h1, h2⟩ := Prod.mk.injEq .. ▸ h
      subst h1; subst h2
      simp [Effect.isDmOk, List.countP, List.countP.go]
    | ok u =>
      cases hp : ops.postMessage msg.team msg.channel msg.text msg.opts with
      | error e1 =>
        simp only [SlashListener.say, hg, hp] at h
        obtain ⟨h1, h2⟩ := Prod.mk.injEq .. ▸ h
        subst h1; subst h2
        simp [Effect.isDmOk, List.countP, List.countP.go]
      | ok r1 =>
        simp only [SlashListener.say, hg, hp] at h
        obtain ⟨h1, h2⟩ := Prod.mk.injEq .. ▸ h
        subst h1; subst h2
        simp [Effect.isDmOk, List.countP, List.countP.go]
  · split at h
    · -- update
      cases hg : ops.getSlack msg.team with
      | error e1 =>
        simp only [SlashListener.update, hg] at h
        obtain ⟨h1, h2⟩ := Prod.mk.injEq .. ▸ h
        subst h1; subst h2
        simp [Effect.isDmOk, List.countP, List.countP.go]
      | ok u =>
        cases hp : ops.updateMessage msg.team msg.ts msg.channel msg.text msg.opts with
        | error e1 =>
          simp only [SlashListener.update, hg, hp] at h
          obtain ⟨h1, h2⟩ := Prod.mk.injEq .. ▸ h
          subst h1; subst h2
          simp [Effect.isDmOk, List.countP, List.countP.go]
        | ok r1 =>
          simp only [SlashListener.update, hg, hp] at h
          obtain ⟨h1, h2⟩ := Prod.mk.injEq .. ▸ h
          subst h1; subst h2
          simp [Effect.isDmOk, List.countP, List.countP.go]
    · split at h
      · -- delete
        cases hg : ops.getSlack msg.team with
        | error e1 =>
          simp only [SlashListener.deleteMsg, hg] at h
          obtain ⟨h1, h2⟩ := Prod.mk.injEq .. ▸ h
          subst h1; subst h2
          simp [Effect.isDmOk, List.countP, List.countP.go]
        | ok u =>
          cases hp : ops.deleteMessage msg.team msg.ts msg.channel with
          | error e1 =>
            simp only [SlashListener.deleteMsg, hg, hp] at h
            obtain ⟨h1, h2⟩ := Prod.mk.injEq .. ▸ h
            subst h1; subst h2
            simp [Effect.isDmOk, List.countP, List.countP.go]
          | ok r1 =>
            simp only [SlashListener.deleteMsg, hg, hp] at h
            obtain ⟨h1, h2⟩ := Prod.mk.injEq .. ▸ h
            subst h1; subst h2
            simp [Effect.isDmOk, List.countP, List.countP.go]
      · split at h
        · -- dm
          cases hg : ops.getSlack msg.team with
          | error e1 =>
            simp only [SlashListener.dmSend, hg] at h
            obtain ⟨h1, h2⟩ := Prod.mk.injEq .. ▸ h
            subst h1; subst h2
            simp [Effect.isDmOk, List.countP, List.countP.go]
          | ok u =>
            cases hp : ops.dm msg.team msg.uid msg.text msg.opts with
            | error e1 =>
              simp only [SlashListener.dmSend, hg, hp] at h
              obtain ⟨h1, h2⟩ := Prod.mk.injEq .. ▸ h
              subst h1; subst h2
              simp [Effect.isDmOk, List.countP, List.countP.go]
            | ok r1 =>
              simp only [SlashListener.dmSend, hg, hp] at h
              obtain ⟨h1, h2⟩ := Prod.mk.injEq .. ▸ h
              subst h1; subst h2
              simp [Effect.isDmOk, List.countP, List.countP.go]
        · split at h
          · -- dialog
            cases hg : ops.getSlack msg.team with
            | error e1 =>
              simp only [SlashListener.dialogSend, hg] at h
              obtain ⟨h1, h2⟩ := Prod.mk.injEq .. ▸ h
              subst h1; subst h2
              simp [Effect.isDmOk, List.countP, List.countP.go]
            | ok u =>
              cases hp : ops.dialog msg.team msg.triggerId msg.dialogBody with
              | error e1 =>
                simp only [SlashListener.dialogSend, hg, hp] at h
                obtain ⟨h1, h2⟩ := Prod.mk.injEq .. ▸ h
                subst h1; subst h2
                simp [Effect.isDmOk, List.countP, List.countP.go]
              | ok r1 =>
                simp only [SlashListener.dialogSend, hg, hp] at h
                obtain ⟨h1, h2⟩ := Prod.mk.injEq .. ▸ h
                subst h1; subst h2
                simp [Effect.isDmOk, List.countP, List.countP.go]
          · -- unknown type
            obtain ⟨h1, h2⟩ := Prod.mk.injEq .. ▸ h
            subst h1; subst h2
            simp [Effect.isDmOk, List.countP, List.countP.go]

/-- Shape of `processQueueMessage`'s effects when it rethrows: no Sentry
report, no acknowledgment, and no successfully sent direct message among
them. -/
theorem processQueueMessage_error_shape (ops : SlackOps) (msg : Envelope)
    (e : JsError)
    (h : (SlashListener.processQueueMessage ops msg).2 = Except.error e) :
    Effect.reportError ∉ (SlashListener.processQueueMessage ops msg).1 ∧
      Effect.ack ∉ (SlashListener.processQueueMessage ops msg).1 ∧
      (SlashListener.processQueueMessage ops msg).1.countP Effect.isDmOk = 0 := by
  by_cases ht : msg.team = none
  · simp [SlashListener.processQueueMessage, ht] at h ⊢
    simp [Effect.isDmOk, List.countP, List.countP.go]
  · rcases hd : SlashListener.dispatch ops msg with ⟨effs, r⟩
    have hshape := dispatch_shape ops msg effs r hd
    rcases r with e' | u
    · by_cases hmnf : e'.errType = "message_not_found"
      · have : (SlashListener.processQueueMessage ops msg).2 = Except.ok () := by
          simp [SlashListener.processQueueMessage, ht, hd, hmnf]
        rw [this] at h
        exact absurd h (by simp)
      · have hpqm : SlashListener.processQueueMessage ops msg = (effs, Except.error e') := by
          simp [SlashListener.processQueueMessage, ht, hd, hmnf]
        rw [hpqm]
        exact ⟨hshape.1, hshape.2.1, hshape.2.2 e' rfl⟩
    · have : (SlashListener.processQueueMessage ops msg).2 = Except.ok () := by
        simp [SlashListener.processQueueMessage, ht, hd]
      rw [this] at h
      exact absurd h (by simp)

/-- C2: a `say` envelope with `team` present whose `postMessage` resolves
with timestamp `t` enqueues exactly one `add_timestamp` envelope onto the
in-queue, carrying `ts = t`, the envelope's channel, and
`teamid = ` the envelope's team. -/
theorem say_success_enqueues_one_add_timestamp
    (ops : SlackOps) (msg : Envelope) (t : String)
    (hty : msg.type = some "say") (hteam : msg.team ≠ none)
    (hg : ops.getSlack msg.team = Except.ok ())
    (hp : ops.postMessage msg.team msg.channel msg.text msg.opts =
      Except.ok ⟨some t⟩) :
    (SlashListener.onConsume ops msg).1 =
        [.getSlack msg.team true,
          .postMessage msg.team msg.channel msg.text msg.opts true,
          .enqueueIn "add_timestamp" (some t) msg.channel msg.team, .ack] ∧
      (SlashListener.onConsume ops msg).1.countP Effect.isEnqueueIn = 1 ∧
      Effect.enqueueIn "add_timestamp" (some t) msg.channel msg.team ∈
        (SlashListener.onConsume ops msg).1 ∧
      (SlashListener.onConsume ops msg).2 = Except.ok () := by
  have hd : SlashListener.dispatch ops msg =
      ([.getSlack msg.team true,
        .postMessage msg.team msg.channel msg.text msg.opts true,
        .enqueueIn "add_timestamp" (some t) msg.channel msg.team],
       Except.ok ()) := by
    simp [SlashListener.dispatch, hty, SlashListener.say, hg, hp]
  have hpqm : SlashListener.processQueueMessage ops msg =
      ([.getSlack msg.team true,
        .postMessage msg.team msg.channel msg.text msg.opts true,
        .enqueueIn "add_timestamp" (some t) msg.channel msg.team],
       Except.ok ()) := by
    simp [SlashListener.processQueueMessage, hteam, hd]
  refine ⟨?_, ?_, ?_, ?_⟩ <;>
    simp [SlashListener.onConsume, hpqm, Effect.isEnqueueIn, List.countP,
      List.countP.go]

/-- Witness for C2: the spec's scenario — envelope
`{type: 'say', channel: 'C1', team: 'T1', text: 'hi'}` against a session
whose `postMessage` resolves with `{ts: '123.45'}`. -/
def sayScenarioOps : SlackOps where
  getSlack _ := .ok ()
  postMessage _ _ _ _ := .ok ⟨some "123.45"⟩
  updateMessage _ _ _ _ _ := .ok ()
  deleteMessage _ _ _ := .ok ()
  dm _ _ _ _ := .ok ()
  dialog _ _ _ := .ok ()

/-- The spec scenario's envelope. -/
def sayScenarioMsg : Envelope :=
  ⟨some "say", some "C1", some "T1", none, none, some "hi", none, none, none, none⟩

theorem say_success_enqueues_one_add_timestamp_witness :
    sayScenarioMsg.type = some "say" ∧ sayScenarioMsg.team ≠ none ∧
      (SlashListener.onConsume sayScenarioOps sayScenarioMsg).1.countP
        Effect.isEnqueueIn = 1 ∧
      Effect.enqueueIn "add_timestamp" (some "123.45") (some "C1") (some "T1") ∈
        (SlashListener.onConsume sayScenarioOps sayScenarioMsg).1 :=
  ⟨rfl, by simp [sayScenarioMsg],
    (say_success_enqueues_one_add_timestamp sayScenarioOps sayScenarioMsg "123.45"
      rfl (by simp [sayScenarioMsg]) rfl rfl).2.1,
    (say_success_enqueues_one_add_timestamp sayScenarioOps sayScenarioMsg "123.45"
      rfl (by simp [sayScenarioMsg]) rfl rfl).2.2.1⟩

/-- C4: when the dispatched platform operation rejects with
`message_not_found` as the error's structured data, the relay logs a
warning, reports nothing to Sentry, lets no exception escape `onConsume`,
and the acknowledgment is still scheduled. -/
theorem message_not_found_warned_swallowed_acked
    (ops : SlackOps) (msg : Envelope) (e : JsError)
    (hteam : ¬ msg.team = none)
    (hd : (SlashListener.dispatch ops msg).2 = Except.error e)
    (he : e.dataError = some "message_not_found") :
    (SlashListener.onConsume ops msg).2 = Except.ok () ∧
      Effect.logWarn ∈ (SlashListener.onConsume ops msg).1 ∧
      Effect.reportError ∉ (SlashListener.onConsume ops msg).1 ∧
      Effect.ack ∈ (SlashListener.onConsume ops msg).1 := by
  rcases hdm : SlashListener.dispatch ops msg with ⟨effs, r⟩
  rw [hdm] at hd
  simp only at hd
  subst hd
  have hnr := (dispatch_shape ops msg effs (Except.error e) hdm).1
  have hpqm : SlashListener.processQueueMessage ops msg =
      (effs ++ [.logWarn], Except.ok ()) := by
    simp [SlashListener.processQueueMessage, hteam, hdm, JsError.errType, he]
  refine ⟨?_, ?_, ?_, ?_⟩ <;>
    simp [SlashListener.onConsume, hpqm, hnr]

/-- Witness for C4: the spec's scenario — envelope
`{type: 'dm', team: 'T1', uid: 'U1', text: 'hi'}` where the session's `dm`
rejects with structured data `{error: 'message_not_found'}`. -/
def mnfError : JsError :=
  ⟨"Error", "An API error occurred: message_not_found", some "message_not_found"⟩

/-- Oracle whose `dm` always rejects with `message_not_found`. -/
def mnfOps : SlackOps where
  getSlack _ := .ok ()
  postMessage _ _ _ _ := .ok ⟨some "1.1"⟩
  updateMessage _ _ _ _ _ := .ok ()
  deleteMessage _ _ _ := .ok ()
  dm _ _ _ _ := .error mnfError
  dialog _ _ _ := .ok ()

/-- The spec scenario's `dm` envelope. -/
def mnfMsg : Envelope :=
  ⟨some "dm", none, some "T1", some "U1", none, some "hi", none, none, none, none⟩

theorem message_not_found_warned_swallowed_acked_witness :
    (¬ mnfMsg.team = none) ∧
      (SlashListener.dispatch mnfOps mnfMsg).2 = Except.error mnfError ∧
      (SlashListener.onConsume mnfOps mnfMsg).2 = Except.ok () ∧
      Effect.reportError ∉ (SlashListener.onConsume mnfOps mnfMsg).1 :=
  ⟨by simp [mnfMsg], rfl,
    (message_not_found_warned_swallowed_acked mnfOps mnfMsg mnfError
      (by simp [mnfMsg]) rfl rfl).1,
    (message_not_found_warned_swallowed_acked mnfOps mnfMsg mnfError
      (by simp [mnfMsg]) rfl rfl).2.2.1⟩

/-- C3: when processing rethrows a platform error whose `message` is
`channel_not_found` and the corrective path resolves, `onConsume` sends
exactly one direct message (to the envelope's `uid`, with the invite nudge),
reports nothing to Sentry, lets no exception escape, and still schedules
the acknowledgment. -/
theorem channel_not_found_dms_user_no_report
    (ops : SlackOps) (msg : Envelope) (e : JsError)
    (hq : (SlashListener.processQueueMessage ops msg).2 = Except.error e)
    (he : e.message = "channel_not_found")
    (hg : ops.getSlack msg.team = Except.ok ())
    (hdm : ops.dm msg.team msg.uid (some SlashListener.inviteNudge) none =
      Except.ok ()) :
    (SlashListener.onConsume ops msg).1.countP Effect.isDmOk = 1 ∧
      Effect.dm msg.team msg.uid (some SlashListener.inviteNudge) none true ∈
        (SlashListener.onConsume ops msg).1 ∧
      Effect.reportError ∉ (SlashListener.onConsume ops msg).1 ∧
      (SlashListener.onConsume ops msg).2 = Except.ok () ∧
      Effect.ack ∈ (SlashListener.onConsume ops msg).1 := by
  rcases hpq : SlashListener.processQueueMessage ops msg with ⟨effs, r⟩
  rw [hpq] at hq
  simp only at hq
  subst hq
  have hsh := processQueueMessage_error_shape ops msg e (by rw [hpq])
  rw [hpq] at hsh
  have hoc : SlashListener.onConsume ops msg =
      (effs ++ [.getSlack msg.team true,
        .dm msg.team msg.uid (some SlashListener.inviteNudge) none true, .ack],
       Except.ok ()) := by
    simp [SlashListener.onConsume, hpq, he, hg, hdm]
  have hsh1 : Effect.reportError ∉ effs := by simpa using hsh.1
  have hsh3 : List.countP Effect.isDmOk effs = 0 := by simpa using hsh.2.2
  refine ⟨?_, ?_, ?_, ?_, ?_⟩
  · rw [hoc]
    simp only [List.countP_append, hsh3]
    simp [Effect.isDmOk, List.countP, List.countP.go]
  · simp [hoc]
  · simp [hoc, hsh1]
  · simp [hoc]
  · simp [hoc]

/-- Witness for C3: a `say` envelope whose `postMessage` rejects with
`channel_not_found` and whose corrective DM resolves. -/
def cnfError : JsError :=
  ⟨"Error", "channel_not_found", some "channel_not_found"⟩

/-- Oracle whose `postMessage` always rejects with `channel_not_found`. -/
def cnfOps : SlackOps where
  getSlack _ := .ok ()
  postMessage _ _ _ _ := .error cnfError
  updateMessage _ _ _ _ _ := .ok ()
  deleteMessage _ _ _ := .ok ()
  dm _ _ _ _ := .ok ()
  dialog _ _ _ := .ok ()

/-- A `say` envelope from a channel the bot was removed from. -/
def cnfMsg : Envelope :=
  ⟨some "say", some "C9", some "T1", some "U1", none, some "hi", none, none, none, none⟩

theorem channel_not_found_dms_user_no_report_witness :
    (SlashListener.processQueueMessage cnfOps cnfMsg).2 = Except.error cnfError ∧
      (SlashListener.onConsume cnfOps cnfMsg).1.countP Effect.isDmOk = 1 ∧
      Effect.reportError ∉ (SlashListener.onConsume cnfOps cnfMsg).1 ∧
      (SlashListener.onConsume cnfOps cnfMsg).2 = Except.ok () :=
  ⟨rfl,
    (channel_not_found_dms_user_no_report cnfOps cnfMsg cnfError
      rfl rfl rfl rfl).1,
    (channel_not_found_dms_user_no_report cnfOps cnfMsg cnfError
      rfl rfl rfl rfl).2.2.1,
    (channel_not_found_dms_user_no_report cnfOps cnfMsg cnfError
      rfl rfl rfl rfl).2.2.2.1⟩

/-- After replacing the entry for `teamId` in an association list that
already holds one, the first entry keyed `teamId` is the replacement. -/
theorem find_replace (teamId : String) (s : Session) :
    ∀ l : List (String × Session),
      (l.find? (fun p => p.1 = teamId)).isSome = true →
      (l.map (fun p => if p.1 = teamId then (teamId, s) else p)).find?
        (fun p => p.1 = teamId) = some (teamId, s) := by
  intro l
  induction l with
  | nil => intro h; simp [List.find?] at h
  | cons p l ih =>
    intro h
    by_cases hp : p.1 = teamId
    · simp [hp]
    · simp only [List.map_cons, if_neg hp]
      rw [List.find?_cons_of_neg _ (by simpa using hp)]
      rw [List.find?_cons_of_neg _ (by simpa using hp)] at h
      exact ih h

/-- Appending a `teamId` entry to an association list holding none makes it
the one `find?` returns. -/
theorem find_append_self (teamId : String) (s : Session) :
    ∀ l : List (String × Session),
      l.find? (fun p => p.1 = teamId) = none →
      (l ++ [(teamId, s)]).find? (fun p => p.1 = teamId) = some (teamId, s) := by
  intro l
  induction l with
  | nil => intro _; simp
  | cons p l ih =>
    intro h
    by_cases hp : p.1 = teamId
    · rw [List.find?_cons_of_pos _ (by simpa using hp)] at h
      exact absurd h (by simp)
    · rw [List.cons_append, List.find?_cons_of_neg _ (by simpa using hp)]
      rw [List.find?_cons_of_neg _ (by simpa using hp)] at h
      exact ih h

/-- `this.slackClients[teamId] = s` followed by reading
`this.slackClients[teamId]` yields `s`. -/
theorem CbState.lookup_insert_self (st : CbState) (teamId : String) (s : Session) :
    (st.insert teamId s).lookup teamId = some s := by
  unfold CbState.insert
  split
  case isTrue h =>
    unfold CbState.lookup
    rw [find_replace teamId s st.slackClients h]
    rfl
  case isFalse h =>
    unfold CbState.lookup
    rw [find_append_self teamId s st.slackClients
      (Option.not_isSome_iff_eq_none.mp (by simpa using h))]
    rfl

/-- C6: `getSlack` on a cached workspace ID returns the cached session
object unchanged, performs no credential fetch and no connection, and leaves
the cache untouched. -/
theorem getSlack_cache_hit_idempotent
    (env : CbEnv) (st : CbState) (teamId : String) (s : Session)
    (h : st.lookup teamId = some s) :
    getSlack env st teamId = (st, [], Except.ok s) := by
  simp [getSlack, h]

/-- Witness for C6: a cache already holding a session for `"T1"`. -/
def cachedSession : Session :=
  ⟨"xoxb", "xoxp", "B1", "chatterbox", true, some true⟩

/-- A cache state holding exactly the `"T1"` session. -/
def cachedState : CbState := ⟨[("T1", cachedSession)]⟩

/-- An environment whose credential store is empty and whose connections
always resolve. -/
def emptyDbEnv : CbEnv := ⟨fun _ => none, fun _ => .ok ()⟩

theorem getSlack_cache_hit_idempotent_witness :
    cachedState.lookup "T1" = some cachedSession ∧
      getSlack emptyDbEnv cachedState "T1" =
        (cachedState, [], Except.ok cachedSession) :=
  ⟨rfl, getSlack_cache_hit_idempotent emptyDbEnv cachedState "T1" cachedSession rfl⟩

/-- C7 counterexample: with no credential record for `"T1"`, `getSlack` on a
cache miss fails — but with the generic `TypeError` raised by reading
`rows[0].bot_token` on an empty result set, not with a distinguished
`UnknownWorkspace` error (no such error exists anywhere in the code). -/
theorem unknown_workspace_not_distinguished_counterexample :
    (getSlack emptyDbEnv ⟨[]⟩ "T1").2.2 = Except.error rowAccessTypeError ∧
      rowAccessTypeError.name = "TypeError" ∧
      ¬ rowAccessTypeError.name = "UnknownWorkspace" :=
  ⟨rfl, rfl, by decide⟩

/-- C7 (amended): on a cache miss for a workspace ID with no credential
record, `getSlack` fails by throwing — the `TypeError` from destructuring
the missing database row — and caches nothing; the failure is not a
distinguished `UnknownWorkspace` error. -/
theorem cache_miss_unknown_team_throws_type_error
    (env : CbEnv) (st : CbState) (teamId : String)
    (hmiss : st.lookup teamId = none) (hdb : env.db teamId = none) :
    (getSlack env st teamId).2.2 = Except.error rowAccessTypeError ∧
      rowAccessTypeError.name = "TypeError" ∧
      (getSlack env st teamId).2.1 = [CbEffect.fetchCreds teamId] ∧
      (getSlack env st teamId).1 = st := by
  refine ⟨?_, rfl, ?_, ?_⟩ <;> simp [getSlack, hmiss, getTeamInfo, hdb]

theorem cache_miss_unknown_team_throws_type_error_witness :
    (CbState.lookup ⟨[]⟩ "T2" = none) ∧ emptyDbEnv.db "T2" = none ∧
      (getSlack emptyDbEnv ⟨[]⟩ "T2").2.2 = Except.error rowAccessTypeError :=
  ⟨rfl, rfl, (cache_miss_unknown_team_throws_type_error emptyDbEnv ⟨[]⟩ "T2" rfl rfl).1⟩

/-- C10: when the connection step fails on lazy initialization, the
never-connected session is already cached, the connect error propagates to
the first caller, and every later `getSlack` for the same workspace ID
returns the cached unconnected session with no further credential fetch or
connection attempt. -/
theorem connect_failure_caches_unconnected_session
    (env : CbEnv) (st : CbState) (teamId : String) (row : TeamRow) (e : JsError)
    (hmiss : st.lookup teamId = none) (hdb : env.db teamId = some row)
    (hconn : env.connectResult teamId = Except.error e) :
    (getSlack env st teamId).2.2 = Except.error e ∧
      (getSlack env st teamId).1.lookup teamId =
        some ⟨row.bot_token, row.app_token, row.bot_id, "chatterbox", false, none⟩ ∧
      getSlack env (getSlack env st teamId).1 teamId =
        ((getSlack env st teamId).1, [],
          Except.ok ⟨row.bot_token, row.app_token, row.bot_id, "chatterbox", false, none⟩) := by
  have h1 : getSlack env st teamId =
      (st.insert teamId ⟨row.bot_token, row.app_token, row.bot_id, "chatterbox", false, none⟩,
       [CbEffect.fetchCreds teamId, CbEffect.connect teamId], Except.error e) := by
    simp [getSlack, hmiss, getTeamInfo, hdb, hconn]
  rw [h1]
  have h2 := CbState.lookup_insert_self st teamId
    ⟨row.bot_token, row.app_token, row.bot_id, "chatterbox", false, none⟩
  exact ⟨rfl, h2, getSlack_cache_hit_idempotent env _ teamId _ h2⟩

/-- Witness for C10: a store holding a row for `"T1"` whose connection
always fails. -/
def failingConnectEnv : CbEnv :=
  ⟨fun _ => some ⟨"xoxb", "xoxp", "B1", true⟩,
    fun _ => .error ⟨"Error", "connect ECONNREFUSED", none⟩⟩

theorem connect_failure_caches_unconnected_session_witness :
    (CbState.lookup ⟨[]⟩ "T1" = none) ∧
      (getSlack failingConnectEnv ⟨[]⟩ "T1").2.2 =
        Except.error ⟨"Error", "connect ECONNREFUSED", none⟩ ∧
      (getSlack failingConnectEnv ⟨[]⟩ "T1").1.lookup "T1" =
        some ⟨"xoxb", "xoxp", "B1", "chatterbox", false, none⟩ :=
  ⟨rfl,
    (connect_failure_caches_unconnected_session failingConnectEnv ⟨[]⟩ "T1"
      ⟨"xoxb", "xoxp", "B1", true⟩ ⟨"Error", "connect ECONNREFUSED", none⟩
      rfl rfl rfl).1,
    (connect_failure_caches_unconnected_session failingConnectEnv ⟨[]⟩ "T1"
      ⟨"xoxb", "xoxp", "B1", true⟩ ⟨"Error", "connect ECONNREFUSED", none⟩
      rfl rfl rfl).2.1⟩

/-- An inbound-listener environment whose every external call resolves and
whose character table is empty. -/
def trivListenerEnv : ListenerEnv where
  verificationToken := "VT"
  cnsApiToken := "CT"
  getSlackResult _ := .ok ()
  dm _ _ := .ok ()
  getConversationMembers _ := .ok ()
  getConversationInfo _ := .ok "chan"
  userInfo _ := .ok ⟨"Ada", "ada@example.com"⟩
  charChannel _ _ := ""

/-- A `/chatandslash` command issued from a public channel (`channel_id`
starting with `'C'`, `channel_name` not `privategroup`). -/
def publicChannelCmd : SlashPayload :=
  ⟨"VT", "T1", "C123", "general", "U1", "/chatandslash"⟩

/-- C8 counterexample: a game-start command from a public (non-`'G'`)
channel is dropped silently — `onSlash` performs no effect at all, in
particular it sends no user-facing direct message, although the claim
promises a rejection DM for every non-private-group game-start command. -/
theorem game_start_public_channel_counterexample :
    publicChannelCmd.command = "/chatandslash" ∧
      ¬ publicChannelCmd.channel_name = "privategroup" ∧
      SlackListener.onSlash trivListenerEnv publicChannelCmd = ([], Except.ok ()) ∧
      (SlackListener.onSlash trivListenerEnv publicChannelCmd).1.countP
        LEffect.isDmSent = 0 :=
  ⟨rfl, by decide, rfl, rfl⟩

/-- C8 (amended): a game-start slash command that did not originate in a
private-group-type channel never enqueues a `new-game` envelope; when the
channel ID marks a group-type channel (`'G'` prefix) the user is rejected
with a direct message, and otherwise the command is dropped silently with
no DM. -/
theorem game_start_non_private_no_new_game
    (env : ListenerEnv) (p : SlashPayload)
    (hc : p.command = "/chatandslash")
    (h : ¬ p.channel_name = "privategroup" ∨ ¬ p.channel_id.take 1 = "G") :
    (SlackListener.onSlash env p).1.countP LEffect.isNewGameEnqueue = 0 ∧
      (p.channel_id.take 1 = "G" → env.getSlackResult p.team_id = Except.ok () →
        env.dm p.user_id SlackListener.publicChannelNudge = Except.ok () →
        LEffect.dm p.user_id SlackListener.publicChannelNudge true ∈
          (SlackListener.onSlash env p).1) ∧
      (¬ p.channel_id.take 1 = "G" → (SlackListener.onSlash env p).1 = []) := by
  by_cases hG : p.channel_id.take 1 = "G"
  · have hname : ¬ p.channel_name = "privategroup" := h.resolve_right (by simp [hG])
    have ho : SlackListener.onSlash env p = SlackListener.onChatAndSlash env p := by
      simp [SlackListener.onSlash, hG, hc]
    rw [ho]
    cases hg : env.getSlackResult p.team_id with
    | error e1 =>
      have hcc : SlackListener.onChatAndSlash env p =
          ([.getSlack p.team_id false], Except.error e1) := by
        simp [SlackListener.onChatAndSlash, hg]
      rw [hcc]
      refine ⟨by simp [List.countP, List.countP.go, LEffect.isNewGameEnqueue], ?_, ?_⟩
      · intro _ hok
        exact absurd hok (by simp)
      · intro hng
        exact absurd hG hng
    | ok u =>
      cases hdm : env.dm p.user_id SlackListener.publicChannelNudge with
      | error e1 =>
        have hcc : SlackListener.onChatAndSlash env p =
            ([.getSlack p.team_id true, .logWarn,
              .dm p.user_id SlackListener.publicChannelNudge false], Except.error e1) := by
          simp [SlackListener.onChatAndSlash, hg, hname, hdm]
        rw [hcc]
        refine ⟨by simp [List.countP, List.countP.go, LEffect.isNewGameEnqueue], ?_, ?_⟩
        · intro _ _ hok
          exact absurd hok (by simp)
        · intro hng
          exact absurd hG hng
      | ok u1 =>
        have hcc : SlackListener.onChatAndSlash env p =
            ([.getSlack p.team_id true, .logWarn,
              .dm p.user_id SlackListener.publicChannelNudge true], Except.ok ()) := by
          simp [SlackListener.onChatAndSlash, hg, hname, hdm]
        rw [hcc]
        refine ⟨by simp [List.countP, List.countP.go, LEffect.isNewGameEnqueue], ?_, ?_⟩
        · intro _ _ _
          simp
        · intro hng
          exact absurd hG hng
  · have ho : SlackListener.onSlash env p = ([], Except.ok ()) := by
      simp [SlackListener.onSlash, hG]
    rw [ho]
    exact ⟨rfl, fun hg => absurd hg hG, fun _ => rfl⟩

/-- Witness for C8 (amended): a game-start command from a `'G'`-prefixed
channel whose name is not `privategroup` gets the rejection DM and enqueues
nothing. -/
def groupMisnamedCmd : SlashPayload :=
  ⟨"VT", "T1", "G123", "general", "U1", "/chatandslash"⟩

theorem game_start_non_private_no_new_game_witness :
    groupMisnamedCmd.command = "/chatandslash" ∧
      (¬ groupMisnamedCmd.channel_name = "privategroup" ∨
        ¬ groupMisnamedCmd.channel_id.take 1 = "G") ∧
      (SlackListener.onSlash trivListenerEnv groupMisnamedCmd).1.countP
        LEffect.isNewGameEnqueue = 0 ∧
      LEffect.dm "U1" SlackListener.publicChannelNudge true ∈
        (SlackListener.onSlash trivListenerEnv groupMisnamedCmd).1 :=
  ⟨rfl, Or.inl (by decide),
    (game_start_non_private_no_new_game trivListenerEnv groupMisnamedCmd rfl
      (Or.inl (by decide))).1,
    (game_start_non_private_no_new_game trivListenerEnv groupMisnamedCmd rfl
      (Or.inl (by decide))).2.1 rfl rfl rfl⟩

/-- Every character `toString('hex')` emits is a lowercase hex digit. -/
theorem hexDigit_isHex (n : Nat) : SlackListener.isHexChar (SlackListener.hexDigit n) = true := by
  unfold SlackListener.hexDigit
  have h : n % 16 < 16 := Nat.mod_lt _ (by norm_num)
  generalize n % 16 = k at h ⊢
  interval_cases k <;> decide

/-- The character data of `createChannelName b0 b1 b2`. -/
theorem createChannelName_data (b0 b1 b2 : Nat) :
    (SlackListener.createChannelName b0 b1 b2).data =
      ['g', 'a', 'm', 'e', '-',
        SlackListener.hexDigit (b0 / 16), SlackListener.hexDigit b0,
        SlackListener.hexDigit (b1 / 16), SlackListener.hexDigit b1,
        SlackListener.hexDigit (b2 / 16), SlackListener.hexDigit b2] := rfl

/-- A `name_taken` creation failure recurses on the remaining fresh names:
the attempt contributes nothing to the outcome. -/
theorem join_retry_eq (env : SlackListener.ProvisionEnv) (uid n : String)
    (rest : List String)
    (hok : (env.createPrivateChannel n).ok = false)
    (hnt : (env.createPrivateChannel n).error.getD "" = "name_taken") :
    SlackListener.joinUserToNewChannel env uid (n :: rest) =
      SlackListener.joinUserToNewChannel env uid rest := by
  simp [SlackListener.joinUserToNewChannel, hok, hnt]

/-- C9: a `name_taken` creation failure makes `joinUserToNewChannel` retry
with the next freshly generated name; any error the caller ever observes is
one of the three generic provisioning failures, none of which carries or
mentions the `name_taken` collision; and every generated name is `game-`
followed by six lowercase hex characters. -/
theorem name_taken_retries_never_surfaces (env : SlackListener.ProvisionEnv)
    (uid : String) :
    (∀ n rest, (env.createPrivateChannel n).ok = false →
      (env.createPrivateChannel n).error.getD "" = "name_taken" →
      SlackListener.joinUserToNewChannel env uid (n :: rest) =
        SlackListener.joinUserToNewChannel env uid rest) ∧
      (∀ names e,
        SlackListener.joinUserToNewChannel env uid names =
          SlackListener.JoinOutcome.err e →
        e.dataError = none ∧ ¬ e.message = "name_taken" ∧
          (e.message = "Could not create private channel." ∨
            e.message = "Could not invite user to channel." ∨
            e.message = "Could not invite bot to channel.")) ∧
      (∀ b0 b1 b2 : Nat,
        (SlackListener.createChannelName b0 b1 b2).length = 11 ∧
          (SlackListener.createChannelName b0 b1 b2).data.take 5 = "game-".data ∧
          ((SlackListener.createChannelName b0 b1 b2).data.drop 5).all
            SlackListener.isHexChar = true) := by
  refine ⟨fun n rest hok hnt => join_retry_eq env uid n rest hok hnt, ?_, ?_⟩
  · intro names
    induction names with
    | nil =>
      intro e h
      simp [SlackListener.joinUserToNewChannel] at h
    | cons n rest ih =>
      intro e h
      cases hcr : (env.createPrivateChannel n).ok with
      | true =>
        have h2 : SlackListener.joinUserToNewChannel env uid (n :: rest) =
            SlackListener.inviteSteps env uid (env.createPrivateChannel n).gid := by
          simp [SlackListener.joinUserToNewChannel, hcr]
        rw [h2] at h
        simp only [SlackListener.inviteSteps] at h
        split_ifs at h <;>
          first
          | exact SlackListener.JoinOutcome.noConfusion h
          | (injection h with h1; subst h1; decide)
      | false =>
        by_cases hnt : (env.createPrivateChannel n).error.getD "" = "name_taken"
        · rw [join_retry_eq env uid n rest hcr hnt] at h
          exact ih e h
        · have h2 : SlackListener.joinUserToNewChannel env uid (n :: rest) =
              SlackListener.JoinOutcome.err
                ⟨"Error", "Could not create private channel.", none⟩ := by
            simp [SlackListener.joinUserToNewChannel, hcr, hnt]
          rw [h2] at h
          injection h with h1
          subst h1
          decide
  · intro b0 b1 b2
    refine ⟨?_, ?_, ?_⟩
    · show (SlackListener.createChannelName b0 b1 b2).data.length = 11
      rw [createChannelName_data]
      rfl
    · rw [createChannelName_data]
      rfl
    · rw [createChannelName_data]
      simp [hexDigit_isHex]

/-- Witness for C9: a platform on which every creation attempt collides. -/
def collideEnv : SlackListener.ProvisionEnv where
  mode := "production"
  botId := "B1"
  createPrivateChannel _ := ⟨false, some "name_taken", "G0"⟩
  invitePrivateChannel _ _ := ⟨true, none⟩

theorem name_taken_retries_never_surfaces_witness :
    (collideEnv.createPrivateChannel "game-0a0a0a").ok = false ∧
      (collideEnv.createPrivateChannel "game-0a0a0a").error.getD "" = "name_taken" ∧
      SlackListener.joinUserToNewChannel collideEnv "U1" ["game-0a0a0a"] =
        SlackListener.joinUserToNewChannel collideEnv "U1" [] ∧
      (SlackListener.createChannelName 10 11 12).length = 11 :=
  ⟨rfl, rfl,
    (name_taken_retries_never_surfaces collideEnv "U1").1 "game-0a0a0a" [] rfl rfl,
    ((name_taken_retries_never_surfaces collideEnv "U1").2.2 10 11 12).1⟩

end Chatterbox
